import Mathlib

/-!
Shallow embedding of the gpx2video sources:
  - `src/gpxlib/Latitude.cpp` (`gpx::Latitude::validate`)
  - `src/src/widgets/time.h` (`TimeWidget::render`)
  - `src/src/main.cpp` (`GPX2Video::parseCommandLine`, `main`)

C++ doubles are modelled as rationals (`Rat`); the comparisons involved
(`-90.0`, `90.0`) are exact in both representations.  Calls into code that
lives outside these files (the `Decimal` base class, `convert`, the libc
`getopt_long`, `localtime_r`/`strftime`, the drawing primitives of
`VideoWidget`) are modelled by their outcomes, passed in as explicit inputs
or recorded as explicit output events, so every definition below mirrors
the control flow of the corresponding source function.
-/

namespace Gpx2Video

/-! ## gpxlib: Latitude::validate (src/gpxlib/Latitude.cpp, lines 45-67) -/

namespace gpx

/-- Report codes used by the gpx library validation (`Report::INCORRECT_VALUE`). -/
inductive ReportCode
  | INCORRECT_VALUE
deriving DecidableEq, Repr

/-- A validation report sink: the ordered list of `report->report(...)` calls,
each recording a code and the offending node value. -/
structure Report where
  entries : List (ReportCode × String)
deriving DecidableEq, Repr

/-- Shallow embedding of `gpx::Latitude::validate(Report *report)`.

`baseOk` is the result of the base-class call `Decimal::validate(report)`;
`conv` is the outcome of `convert(value)` (`some v` when the conversion to a
double succeeds, carrying the converted value, `none` when it fails);
`value` is the node text returned by `this->getValue()`; `report` is the
report pointer, `none` when null.  Both callee functions live outside the
provided sources, so their outcomes are inputs of the embedding.
Returns the `bool` result together with the (possibly updated) report. -/
def Latitude.validate (baseOk : Bool) (conv : Option Rat) (value : String)
    (report : Option Report) : Bool × Option Report :=
  if baseOk then
    match conv with
    | some v =>
      if v < -90 ∨ v > 90 then
        (false, report.map (fun r => ⟨r.entries ++ [(ReportCode.INCORRECT_VALUE, value)]⟩))
      else
        (true, report)
    | none => (true, report)
  else
    (false, report)

end gpx

/-! ## TimeWidget::render (src/src/widgets/time.h, lines 41-57) -/

/-- A telemetry sample as passed to widget `render` calls (`GPXData`). -/
structure GPXData where
  lat : Rat
  lon : Rat
  ele : Rat
  speed : Rat
  gpsTime : Int
deriving DecidableEq, Repr

/-- The `TimeWidget` fields read by `render`: geometry accessors of the
`VideoWidget` base plus the application camera clock `app_.time()`. -/
structure TimeWidgetState where
  x : Int
  y : Int
  height : Int
  padding : Int
  label : String
  appTime : Int
deriving DecidableEq, Repr

/-- Drawing primitives invoked by widgets (`VideoWidget::drawLabel`,
`VideoWidget::drawValue`); the primitives themselves are external, so a
render is recorded as the ordered list of calls it makes. -/
inductive DrawCall
  | drawLabel (x y : Int) (text : String)
  | drawValue (x y : Int) (text : String)
deriving DecidableEq, Repr

/-- Two-digit zero padding, as produced by `strftime` fields. -/
def pad2 (n : Nat) : String :=
  if n < 10 then "0" ++ toString n else toString n

/-- Model of `localtime_r` + `strftime(s, _, "%H:%M:%S", &time)` applied to an
epoch-seconds clock value (libc, external to the sources): the wall-clock
hours, minutes and seconds of `t`. -/
def formatHMS (t : Int) : String :=
  let tn := t.toNat
  pad2 (tn / 3600 % 24) ++ ":" ++ pad2 (tn / 60 % 60) ++ ":" ++ pad2 (tn % 60)

/-- Shallow embedding of `TimeWidget::render(OIIO::ImageBuf *buf, const GPXData &data)`:
formats the camera clock `app_.time()` (`(void) data;` — the sample is
discarded), then draws the label and the formatted value at the configured
widget position.  Returns the drawing calls issued against the frame buffer. -/
def TimeWidget.render (w : TimeWidgetState) (data : GPXData) : List DrawCall :=
  let s := formatHMS w.appTime
  [ DrawCall.drawLabel (w.x + w.height + w.padding) w.y w.label,
    DrawCall.drawValue (w.x + w.height + w.padding) w.y s ]

/-- A frame buffer, abstracted as its paint history: blending is applying
drawing calls in order. -/
def Frame := List DrawCall
deriving DecidableEq, Repr

/-- The frame resulting from a `TimeWidget::render` call on frame `buf`. -/
def TimeWidget.renderFrame (w : TimeWidgetState) (buf : Frame) (data : GPXData) : Frame :=
  List.append buf (TimeWidget.render w data)

/-! ## GPX2Video::parseCommandLine (src/src/main.cpp, lines 98-243)

`getopt_long` is libc and external: it turns `argv` into a stream of
recognised option events (in command-line order) plus the remaining
non-option arguments.  The embedding consumes that stream.  The numeric
conversions `strtod`/`atoi` applied to `optarg` are likewise libc, so the
events carry the converted values directly.  All entries of the long-option
table set a null `flag` pointer, so `getopt_long` never returns `0` and the
`case 0` branch is unreachable. -/

/-- The `GPX2Video::Command` enumeration values selected by `setCommand`. -/
inductive Command
  | CommandSource
  | CommandSync
  | CommandClear
  | CommandMap
  | CommandTrack
  | CommandVideo
deriving DecidableEq, Repr

/-- The `GPX2Video::Settings` record saved by `setSettings` (field order of
the constructor call at main.cpp lines 225-233). -/
structure Settings where
  gpxfile : String
  mediafile : String
  outputfile : String
  map_factor : Rat
  map_zoom : Int
  max_duration_ms : Int
  map_source : Int
deriving DecidableEq, Repr

/-- `MapSettings::SourceOpenStreetMap` (enum value from map.h, outside the
provided sources; only used as the default `map_source`). -/
def MapSettings.SourceOpenStreetMap : Int := 0

/-- One option event produced by `getopt_long` on the gpx2video option table:
the option character returned, with the converted `optarg` where the source
immediately converts it.  `invalid` is an unrecognised option (getopt
returns a character handled by the `default:` branch). -/
inductive OptEvent
  | help
  | maplist
  | factor (v : Rat)
  | zoom (v : Int)
  | source (v : Int)
  | quiet
  | verbose
  | duration (v : Int)
  | media (s : String)
  | gpx (s : String)
  | output (s : String)
  | invalid
deriving DecidableEq, Repr

/-- The local variables of `parseCommandLine` mutated by the option loop,
plus the lines printed so far. -/
structure LoopState where
  verbose : Int
  map_zoom : Int
  max_duration_ms : Int
  map_factor : Rat
  map_source : Int
  gpxfile : Option String
  mediafile : Option String
  outputfile : Option String
  printed : List String
deriving DecidableEq, Repr

/-- Initial values of the option-loop locals (main.cpp lines 102-112). -/
def initLoopState : LoopState :=
  { verbose := 0
    map_zoom := 12
    max_duration_ms := 0
    map_factor := 1
    map_source := MapSettings.SourceOpenStreetMap
    gpxfile := none
    mediafile := none
    outputfile := none
    printed := [] }

/-- How the option loop can exit early: `fail` is any `return -1` inside the
loop (help, a duplicate file option, an invalid option); `sourceCmd` is the
`map-list` branch, which sets `CommandSource` and returns `0`. -/
inductive LoopExit
  | fail
  | sourceCmd
deriving DecidableEq, Repr

/-- One iteration of the `switch (option)` body (main.cpp lines 125-181). -/
def stepOpt (st : LoopState) : OptEvent → Except LoopExit LoopState
  | OptEvent.help => Except.error LoopExit.fail
  | OptEvent.maplist => Except.error LoopExit.sourceCmd
  | OptEvent.factor v => Except.ok { st with map_factor := v }
  | OptEvent.zoom v => Except.ok { st with map_zoom := v }
  | OptEvent.source v => Except.ok { st with map_source := v }
  | OptEvent.quiet => Except.ok st
  | OptEvent.verbose => Except.ok { st with verbose := st.verbose + 1 }
  | OptEvent.duration v => Except.ok { st with max_duration_ms := v }
  | OptEvent.media s =>
    match st.mediafile with
    | some _ =>
      Except.error LoopExit.fail
    | none => Except.ok { st with mediafile := some s }
  | OptEvent.gpx s =>
    match st.gpxfile with
    | some _ =>
      Except.error LoopExit.fail
    | none => Except.ok { st with gpxfile := some s }
  | OptEvent.output s =>
    match st.outputfile with
    | some _ =>
      Except.error LoopExit.fail
    | none => Except.ok { st with outputfile := some s }
  | OptEvent.invalid => Except.error LoopExit.fail

/-- The `for (;;)` option loop: fold `stepOpt` over the event stream until
`getopt_long` returns `-1` (stream exhausted) or a branch returns. -/
def runLoop (st : LoopState) : List OptEvent → Except LoopExit LoopState
  | [] => Except.ok st
  | e :: es =>
    match stepOpt st e with
    | Except.ok st' => runLoop st' es
    | Except.error x => Except.error x

/-- The outcome of `parseCommandLine`: the returned `int`, the command
stored by `setCommand` (`none` when no `setCommand` call was reached), the
settings stored by `setSettings` (`none` when not reached), and the lines
printed after the option loop. -/
structure ParseOutcome where
  result : Int
  command : Option Command
  settings : Option Settings
  printed : List String
deriving DecidableEq, Repr

/-- The `strcmp` chain selecting a command from the single remaining
argument (main.cpp lines 206-215). -/
def commandOfWord (w : String) : Option Command :=
  if w = "sync" then some Command.CommandSync
  else if w = "clear" then some Command.CommandClear
  else if w = "map" then some Command.CommandMap
  else if w = "track" then some Command.CommandTrack
  else if w = "video" then some Command.CommandVideo
  else none

/-- The code after the option loop (main.cpp lines 184-242): the required
option checks, command-word dispatch on the remaining non-option arguments
`args`, and the `setSettings` call. -/
def finishParse (name : String) (st : LoopState) (args : List String) : ParseOutcome :=
  match st.mediafile with
  | none =>
    { result := -1, command := none, settings := none
      printed := [name ++ ": option \x27--media\x27 is required"] }
  | some mediafile =>
    match st.gpxfile with
    | none =>
      { result := -1, command := none, settings := none
        printed := [name ++ ": option \x27--gpx\x27 is required"] }
    | some gpxfile =>
      match st.outputfile with
      | none =>
        { result := -1, command := none, settings := none
          printed := [name ++ ": option \x27--output\x27 is required"] }
      | some outputfile =>
        let settings : Settings :=
          { gpxfile := gpxfile
            mediafile := mediafile
            outputfile := outputfile
            map_factor := st.map_factor
            map_zoom := st.map_zoom
            max_duration_ms := st.max_duration_ms
            map_source := st.map_source }
        match args with
        | [w] =>
          match commandOfWord w with
          | some c =>
            { result := 0, command := some c, settings := some settings, printed := [] }
          | none =>
            { result := -1, command := none, settings := none
              printed := [name ++ ": command \x27" ++ w ++ "\x27 unknown"] }
        | _ =>
          { result := 0, command := some Command.CommandVideo
            settings := some settings, printed := [] }

/-- Shallow embedding of `GPX2Video::parseCommandLine(int argc, char *argv[])`:
run the option loop over the `getopt_long` event stream, then the post-loop
checks on the remaining non-option arguments. -/
def parseCommandLine (name : String) (opts : List OptEvent) (args : List String) :
    ParseOutcome :=
  match runLoop initLoopState opts with
  | Except.error LoopExit.fail =>
    { result := -1, command := none, settings := none, printed := [] }
  | Except.error LoopExit.sourceCmd =>
    { result := 0, command := some Command.CommandSource, settings := none, printed := [] }
  | Except.ok st => finishParse name st args

/-! ## main (src/src/main.cpp, lines 246-340) -/

/-- The pipeline tasks `main` can create and append to the application. -/
inductive Task
  | timesync
  | map
  | renderer
deriving DecidableEq, Repr

/-- The observable actions of `main` after parsing, in program order:
printing usage, printing the map list, the not-yet-implemented /
not-supported log lines, appending a task (`app.append`), and entering the
event loop (`app.exec()`). -/
inductive MainEffect
  | printUsage
  | printMapList
  | logNotImplemented
  | logNotSupported
  | append (t : Task)
  | execLoop
deriving DecidableEq, Repr

/-- `EXIT_SUCCESS` from stdlib. -/
def EXIT_SUCCESS : Int := 0

/-- Shallow embedding of `main` from the parse result on: the branch on the
`parseCommandLine` result and the `switch (app.command())`, returning the
effect sequence and the process exit status.  Every branch reaches the
shared `exit:` label, whose only exit call is `exit(EXIT_SUCCESS)`
(main.cpp line 339). -/
def mainDispatch (po : ParseOutcome) : List MainEffect × Int :=
  if po.result < 0 then
    ([MainEffect.printUsage], EXIT_SUCCESS)
  else
    match po.command with
    | some Command.CommandSource => ([MainEffect.printMapList], EXIT_SUCCESS)
    | some Command.CommandSync =>
      ([MainEffect.append Task.timesync, MainEffect.execLoop], EXIT_SUCCESS)
    | some Command.CommandClear => ([MainEffect.logNotImplemented], EXIT_SUCCESS)
    | some Command.CommandMap =>
      ([MainEffect.append Task.map, MainEffect.execLoop], EXIT_SUCCESS)
    | some Command.CommandTrack => ([MainEffect.logNotImplemented], EXIT_SUCCESS)
    | some Command.CommandVideo =>
      ([MainEffect.append Task.timesync, MainEffect.append Task.map,
        MainEffect.append Task.renderer, MainEffect.execLoop], EXIT_SUCCESS)
    | none => ([MainEffect.logNotSupported], EXIT_SUCCESS)

/-- The process exit status of a `main` run with parse outcome `po`. -/
def mainExitStatus (po : ParseOutcome) : Int :=
  (mainDispatch po).2

/-- The tasks appended by `main`, in order, for parse outcome `po`. -/
def appendedTasks (po : ParseOutcome) : List Task :=
  (mainDispatch po).1.filterMap fun e =>
    match e with
    | MainEffect.append t => some t
    | _ => none

/-! ## Helper lemmas -/

/-- The option loop over a concatenated event stream runs the first part,
then (when it did not exit early) the second from the resulting state. -/
theorem runLoop_append (st : LoopState) (xs ys : List OptEvent) :
    runLoop st (xs ++ ys) =
      match runLoop st xs with
      | Except.ok st' => runLoop st' ys
      | Except.error x => Except.error x := by
  induction xs generalizing st with
  | nil => simp [runLoop]
  | cons e es ih =>
    simp only [List.cons_append, runLoop]
    cases stepOpt st e with
    | ok st' => simp [ih]
    | error x => simp

/-! ## Claim theorems -/

/-- C2: a latitude whose value converts to a double outside [-90, 90] (base
Decimal validation succeeding) fails `Latitude::validate`, and a non-null
report receives an `INCORRECT_VALUE` entry for the node; a value converting
inside [-90, 90] (base validation succeeding) passes validation. -/
theorem latitude_validate_range (v : Rat) (s : String) (r : gpx.Report)
    (rep : Option gpx.Report) :
    ((v < -90 ∨ v > 90) →
      (gpx.Latitude.validate true (some v) s (some r)).1 = false ∧
      (gpx.Latitude.validate true (some v) s (some r)).2 =
        some ⟨r.entries ++ [(gpx.ReportCode.INCORRECT_VALUE, s)]⟩) ∧
    (-90 ≤ v → v ≤ 90 →
      (gpx.Latitude.validate true (some v) s rep).1 = true) := by
  constructor
  · intro h
    simp [gpx.Latitude.validate, h]
  · intro h1 h2
    have h : ¬ (v < -90 ∨ v > 90) := by
      push_neg
      exact ⟨h1, h2⟩
    simp [gpx.Latitude.validate, h]

/-- Witness for C2 at the concrete values 91 (rejected and reported) and
45 (accepted). -/
theorem latitude_validate_range_witness :
    ((91 : Rat) < -90 ∨ (91 : Rat) > 90) ∧
    (gpx.Latitude.validate true (some 91) "91.0" (some ⟨[]⟩)).1 = false ∧
    (gpx.Latitude.validate true (some 91) "91.0" (some ⟨[]⟩)).2 =
      some ⟨[(gpx.ReportCode.INCORRECT_VALUE, "91.0")]⟩ ∧
    (gpx.Latitude.validate true (some 45) "45.0" none).1 = true := by
  have hout : (91 : Rat) < -90 ∨ (91 : Rat) > 90 := Or.inr (by norm_num)
  have h1 := (latitude_validate_range 91 "91.0" ⟨[]⟩ none).1 hout
  have h2 := (latitude_validate_range 45 "45.0" ⟨[]⟩ none).2 (by norm_num) (by norm_num)
  exact ⟨hout, h1.1, by simpa using h1.2, h2⟩

/-- C8: `Latitude::validate` returns false exactly when the base `Decimal`
validation fails or the value converts to a double outside [-90, 90]; when
the base validation succeeds but the conversion fails, validation succeeds
and the report is untouched. -/
theorem latitude_validate_iff (baseOk : Bool) (conv : Option Rat) (s : String)
    (rep : Option gpx.Report) :
    ((gpx.Latitude.validate baseOk conv s rep).1 = false ↔
      (baseOk = false ∨ ∃ v, conv = some v ∧ (v < -90 ∨ v > 90))) ∧
    (baseOk = true → conv = none →
      gpx.Latitude.validate baseOk conv s rep = (true, rep)) := by
  constructor
  · cases baseOk with
    | false => simp [gpx.Latitude.validate]
    | true =>
      cases conv with
      | none => simp [gpx.Latitude.validate]
      | some v =>
        by_cases h : v < -90 ∨ v > 90
        · simp [gpx.Latitude.validate, h]
        · simp [gpx.Latitude.validate, h]
  · intro hb hc
    subst hb
    subst hc
    simp [gpx.Latitude.validate]

/-- Witness for C8: a non-convertible latitude (base validation succeeding)
passes validation with the report unchanged. -/
theorem latitude_validate_iff_witness :
    gpx.Latitude.validate true none "abc" (some ⟨[]⟩) = (true, some ⟨[]⟩) :=
  (latitude_validate_iff true none "abc" (some ⟨[]⟩)).2 rfl rfl

/-- C3: `TimeWidget::render` depends only on the application camera clock:
for any two telemetry samples it issues the same drawing calls and produces
the same resulting frame. -/
theorem timeWidget_render_ignores_telemetry (w : TimeWidgetState) (buf : Frame)
    (d1 d2 : GPXData) :
    TimeWidget.render w d1 = TimeWidget.render w d2 ∧
    TimeWidget.renderFrame w buf d1 = TimeWidget.renderFrame w buf d2 :=
  ⟨rfl, rfl⟩

/-- C5: when the option loop completes with the three required file options
present and exactly one non-option argument remains, each of the five words
sync, clear, map, track and video selects the command of that name with a
zero result, and any other word is reported unknown with a negative result. -/
theorem parse_command_selection (name : String) (opts : List OptEvent)
    (st : LoopState) (m g o w : String)
    (h : runLoop initLoopState opts = Except.ok st)
    (hm : st.mediafile = some m) (hg : st.gpxfile = some g)
    (ho : st.outputfile = some o) :
    ((w = "sync" → (parseCommandLine name opts [w]).result = 0 ∧
        (parseCommandLine name opts [w]).command = some Command.CommandSync) ∧
      (w = "clear" → (parseCommandLine name opts [w]).result = 0 ∧
        (parseCommandLine name opts [w]).command = some Command.CommandClear) ∧
      (w = "map" → (parseCommandLine name opts [w]).result = 0 ∧
        (parseCommandLine name opts [w]).command = some Command.CommandMap) ∧
      (w = "track" → (parseCommandLine name opts [w]).result = 0 ∧
        (parseCommandLine name opts [w]).command = some Command.CommandTrack) ∧
      (w = "video" → (parseCommandLine name opts [w]).result = 0 ∧
        (parseCommandLine name opts [w]).command = some Command.CommandVideo)) ∧
    (w ≠ "sync" → w ≠ "clear" → w ≠ "map" → w ≠ "track" → w ≠ "video" →
      (parseCommandLine name opts [w]).result = -1 ∧
      (parseCommandLine name opts [w]).printed =
        [name ++ ": command \x27" ++ w ++ "\x27 unknown"]) := by
  have hp : parseCommandLine name opts [w] = finishParse name st [w] := by
    simp [parseCommandLine, h]
  rw [hp]
  refine ⟨⟨?_, ?_, ?_, ?_, ?_⟩, ?_⟩
  · intro hw
    subst hw
    simp [finishParse, hm, hg, ho, commandOfWord]
  · intro hw
    subst hw
    simp [finishParse, hm, hg, ho, commandOfWord]
  · intro hw
    subst hw
    simp [finishParse, hm, hg, ho, commandOfWord]
  · intro hw
    subst hw
    simp [finishParse, hm, hg, ho, commandOfWord]
  · intro hw
    subst hw
    simp [finishParse, hm, hg, ho, commandOfWord]
  · intro h1 h2 h3 h4 h5
    simp [finishParse, hm, hg, ho, commandOfWord, h1, h2, h3, h4, h5]

/-- Witness for C5: with media, gpx and output given, the word map selects
the map command with result 0, and an unknown word fails with result -1. -/
theorem parse_command_selection_witness :
    (parseCommandLine "gpx2video"
        [OptEvent.media "m", OptEvent.gpx "g", OptEvent.output "o"] ["map"]).result = 0 ∧
    (parseCommandLine "gpx2video"
        [OptEvent.media "m", OptEvent.gpx "g", OptEvent.output "o"] ["map"]).command =
      some Command.CommandMap ∧
    (parseCommandLine "gpx2video"
        [OptEvent.media "m", OptEvent.gpx "g", OptEvent.output "o"] ["bogus"]).result = -1 := by
  have hmap := (parse_command_selection "gpx2video"
    [OptEvent.media "m", OptEvent.gpx "g", OptEvent.output "o"]
    { verbose := 0, map_zoom := 12, max_duration_ms := 0, map_factor := 1
      map_source := MapSettings.SourceOpenStreetMap
      gpxfile := some "g", mediafile := some "m", outputfile := some "o", printed := [] }
    "m" "g" "o" "map" rfl rfl rfl rfl).1.2.2.1 rfl
  have hbad := (parse_command_selection "gpx2video"
    [OptEvent.media "m", OptEvent.gpx "g", OptEvent.output "o"]
    { verbose := 0, map_zoom := 12, max_duration_ms := 0, map_factor := 1
      map_source := MapSettings.SourceOpenStreetMap
      gpxfile := some "g", mediafile := some "m", outputfile := some "o", printed := [] }
    "m" "g" "o" "bogus" rfl rfl rfl rfl).2
    (by decide) (by decide) (by decide) (by decide) (by decide)
  exact ⟨hmap.1, hmap.2, hbad.1⟩

/-- C6: without the help or map-list options, when the option loop completes
and any of the media, gpx or output options is missing, `parseCommandLine`
prints which option is required, returns -1, and saves no settings. -/
theorem parse_required_options (name : String) (opts : List OptEvent)
    (st : LoopState) (args : List String)
    (hh : OptEvent.help ∉ opts) (hl : OptEvent.maplist ∉ opts)
    (h : runLoop initLoopState opts = Except.ok st)
    (habs : st.mediafile = none ∨ st.gpxfile = none ∨ st.outputfile = none) :
    (parseCommandLine name opts args).result = -1 ∧
    (parseCommandLine name opts args).settings = none ∧
    (st.mediafile = none →
      (parseCommandLine name opts args).printed =
        [name ++ ": option \x27--media\x27 is required"]) ∧
    (st.mediafile ≠ none → st.gpxfile = none →
      (parseCommandLine name opts args).printed =
        [name ++ ": option \x27--gpx\x27 is required"]) ∧
    (st.mediafile ≠ none → st.gpxfile ≠ none → st.outputfile = none →
      (parseCommandLine name opts args).printed =
        [name ++ ": option \x27--output\x27 is required"]) := by
  have hp : parseCommandLine name opts args = finishParse name st args := by
    simp [parseCommandLine, h]
  rw [hp]
  cases hmf : st.mediafile with
  | none =>
    refine ⟨by simp [finishParse, hmf], by simp [finishParse, hmf],
      fun _ => by simp [finishParse, hmf], fun hc => absurd rfl hc,
      fun hc => absurd rfl hc⟩
  | some m =>
    cases hgf : st.gpxfile with
    | none =>
      refine ⟨by simp [finishParse, hmf, hgf], by simp [finishParse, hmf, hgf],
        fun hc => by simp [hmf] at hc, fun _ _ => by simp [finishParse, hmf, hgf],
        fun _ hc => absurd rfl hc⟩
    | some g =>
      cases hof : st.outputfile with
      | none =>
        refine ⟨by simp [finishParse, hmf, hgf, hof], by simp [finishParse, hmf, hgf, hof],
          fun hc => by simp [hmf] at hc, fun _ hc => by simp [hgf] at hc,
          fun _ _ _ => by simp [finishParse, hmf, hgf, hof]⟩
      | some o =>
        rcases habs with hc | hc | hc
        · exact absurd hmf (by simp [hc])
        · exact absurd hgf (by simp [hc])
        · exact absurd hof (by simp [hc])

/-- Witness for C6: with no options at all, parsing fails with -1, saves no
settings, and reports the media option as required. -/
theorem parse_required_options_witness :
    (parseCommandLine "gpx2video" [] []).result = -1 ∧
    (parseCommandLine "gpx2video" [] []).settings = none ∧
    (parseCommandLine "gpx2video" [] []).printed =
      ["gpx2video: option \x27--media\x27 is required"] := by
  have h := parse_required_options "gpx2video" [] initLoopState []
    (by simp) (by simp) rfl (Or.inl rfl)
  refine ⟨h.1, h.2.1, ?_⟩
  rw [h.2.2.1 rfl]
  rfl

/-- C9: as soon as the map-list option is reached, `parseCommandLine` stores
the source command and returns 0, with no requirement that the media, gpx
or output options be present: the required-input checks are bypassed. -/
theorem parse_maplist_bypasses (name : String) (pre post : List OptEvent)
    (st : LoopState) (args : List String)
    (h : runLoop initLoopState pre = Except.ok st) :
    (parseCommandLine name (pre ++ OptEvent.maplist :: post) args).result = 0 ∧
    (parseCommandLine name (pre ++ OptEvent.maplist :: post) args).command =
      some Command.CommandSource ∧
    (parseCommandLine name (pre ++ OptEvent.maplist :: post) args).settings = none := by
  have hr : runLoop initLoopState (pre ++ OptEvent.maplist :: post) =
      Except.error LoopExit.sourceCmd := by
    rw [runLoop_append, h]
    simp [runLoop, stepOpt]
  simp [parseCommandLine, hr]

/-- Witness for C9: the map-list option alone, with every required file
option absent, yields result 0 and the source command. -/
theorem parse_maplist_bypasses_witness :
    (parseCommandLine "gpx2video" [OptEvent.maplist] []).result = 0 ∧
    (parseCommandLine "gpx2video" [OptEvent.maplist] []).command =
      some Command.CommandSource := by
  have h := parse_maplist_bypasses "gpx2video" [] [] initLoopState [] rfl
  exact ⟨h.1, h.2.1⟩

/-- C10: when the option loop completes with the three required file options
present and the number of remaining non-option arguments is not one, the
video command is selected and `parseCommandLine` returns 0. -/
theorem parse_default_video (name : String) (opts : List OptEvent)
    (st : LoopState) (args : List String) (m g o : String)
    (h : runLoop initLoopState opts = Except.ok st)
    (hm : st.mediafile = some m) (hg : st.gpxfile = some g)
    (ho : st.outputfile = some o)
    (hlen : args.length ≠ 1) :
    (parseCommandLine name opts args).result = 0 ∧
    (parseCommandLine name opts args).command = some Command.CommandVideo := by
  have hp : parseCommandLine name opts args = finishParse name st args := by
    simp [parseCommandLine, h]
  rw [hp]
  cases args with
  | nil => simp [finishParse, hm, hg, ho]
  | cons a rest =>
    cases rest with
    | nil => exact (hlen rfl).elim
    | cons b rest2 => simp [finishParse, hm, hg, ho]

/-- Witness for C10: three required options and zero remaining arguments
select the video command with result 0. -/
theorem parse_default_video_witness :
    (parseCommandLine "gpx2video"
        [OptEvent.media "m", OptEvent.gpx "g", OptEvent.output "o"] []).result = 0 ∧
    (parseCommandLine "gpx2video"
        [OptEvent.media "m", OptEvent.gpx "g", OptEvent.output "o"] []).command =
      some Command.CommandVideo :=
  parse_default_video "gpx2video"
    [OptEvent.media "m", OptEvent.gpx "g", OptEvent.output "o"]
    { verbose := 0, map_zoom := 12, max_duration_ms := 0, map_factor := 1
      map_source := MapSettings.SourceOpenStreetMap
      gpxfile := some "g", mediafile := some "m", outputfile := some "o", printed := [] }
    [] "m" "g" "o" rfl rfl rfl rfl (by decide)

/-- C7: with a non-negative parse result, the video command appends the
timesync, map and renderer tasks in that order before entering the event
loop; the sync command appends only timesync; the map command appends only
map. -/
theorem main_task_pipeline (po : ParseOutcome) (h : 0 ≤ po.result) :
    (po.command = some Command.CommandVideo →
      (mainDispatch po).1 = [MainEffect.append Task.timesync, MainEffect.append Task.map,
        MainEffect.append Task.renderer, MainEffect.execLoop] ∧
      appendedTasks po = [Task.timesync, Task.map, Task.renderer]) ∧
    (po.command = some Command.CommandSync →
      (mainDispatch po).1 = [MainEffect.append Task.timesync, MainEffect.execLoop] ∧
      appendedTasks po = [Task.timesync]) ∧
    (po.command = some Command.CommandMap →
      (mainDispatch po).1 = [MainEffect.append Task.map, MainEffect.execLoop] ∧
      appendedTasks po = [Task.map]) := by
  have hn : ¬ po.result < 0 := not_lt.mpr h
  refine ⟨fun hc => ?_, fun hc => ?_, fun hc => ?_⟩ <;>
    simp [mainDispatch, appendedTasks, hn, hc]

/-- Witness for C7: a successful parse outcome selecting the video command
appends exactly timesync, map and renderer, in that order, then runs the
event loop. -/
theorem main_task_pipeline_witness :
    (mainDispatch ⟨0, some Command.CommandVideo, none, []⟩).1 =
      [MainEffect.append Task.timesync, MainEffect.append Task.map,
        MainEffect.append Task.renderer, MainEffect.execLoop] ∧
    appendedTasks ⟨0, some Command.CommandVideo, none, []⟩ =
      [Task.timesync, Task.map, Task.renderer] :=
  (main_task_pipeline ⟨0, some Command.CommandVideo, none, []⟩ (by decide)).1 rfl

/-- C1 (observed divergence): the exit status of `main` is `EXIT_SUCCESS`
for every parse outcome, since every branch reaches the single
`exit(EXIT_SUCCESS)` call; in particular a run with no options has a
negative parse result (the media option is missing), prints the usage, and
still exits with status 0 rather than a non-zero status. -/
theorem main_exit_status_always_success :
    (∀ po : ParseOutcome, mainExitStatus po = 0) ∧
    (parseCommandLine "gpx2video" [] []).result = -1 ∧
    mainExitStatus (parseCommandLine "gpx2video" [] []) = 0 ∧
    (mainDispatch (parseCommandLine "gpx2video" [] [])).1 = [MainEffect.printUsage] := by
  refine ⟨fun po => ?_, rfl, rfl, rfl⟩
  by_cases h : po.result < 0
  · simp [mainExitStatus, mainDispatch, h, EXIT_SUCCESS]
  · cases hc : po.command with
    | none => simp [mainExitStatus, mainDispatch, h, hc, EXIT_SUCCESS]
    | some c => cases c <;> simp [mainExitStatus, mainDispatch, h, hc, EXIT_SUCCESS]

/-- C4 (observed divergence): the clear command parses successfully, but the
`CommandClear` branch of `main` only logs that it is not yet implemented
and exits: it appends no task and performs no cache-purging action of any
kind, leaving the persisted tile cache untouched. -/
theorem main_clear_not_implemented :
    (parseCommandLine "gpx2video"
        [OptEvent.media "m", OptEvent.gpx "g", OptEvent.output "o"] ["clear"]).result = 0 ∧
    (parseCommandLine "gpx2video"
        [OptEvent.media "m", OptEvent.gpx "g", OptEvent.output "o"] ["clear"]).command =
      some Command.CommandClear ∧
    mainDispatch (parseCommandLine "gpx2video"
        [OptEvent.media "m", OptEvent.gpx "g", OptEvent.output "o"] ["clear"]) =
      ([MainEffect.logNotImplemented], 0) ∧
    appendedTasks (parseCommandLine "gpx2video"
        [OptEvent.media "m", OptEvent.gpx "g", OptEvent.output "o"] ["clear"]) = [] := by
  exact ⟨rfl, rfl, rfl, rfl⟩

end Gpx2Video
